import Mathlib

/-!
Shallow embedding of the load-balancer driver adapters:
- neutron/plugins/nicira/vshield/edge_loadbalancer_driver.py (edge driver)
- neutron/services/loadbalancer/drivers/netscaler/plugin_driver.py (agent driver)
- neutron/services/loadbalancer/drivers/netscaler/rest_client.py (REST client)

Pure functions become Lean functions; the mutable binding store and the
network-provider state are passed explicitly; backend collaborators are
records of functions returning `Except`; each driver entry point also
returns the list of backend calls it issued, in order.
-/

namespace Py

/-- Index of the last occurrence of a character in a list, if any. -/
def rfindIdx : List Char → Char → Option Nat
  | [], _ => none
  | a :: l, c =>
    match rfindIdx l c with
    | some i => some (i + 1)
    | none => if a = c then some 0 else none

/-- Python `s.rfind(c)`: index of the last occurrence, `-1` when absent. -/
def pyRfind (s : List Char) (c : Char) : Int :=
  match rfindIdx s c with
  | some i => (i : Int)
  | none => -1

end Py

namespace Edge

/-- Python `objuri[objuri.rfind("/") + 1:]`, the id-extraction idiom used by
`create_vip`, `create_pool` and `create_health_monitor`. -/
def locationId (objuri : String) : String :=
  ⟨objuri.data.drop (Py.pyRfind objuri.data '/' + 1).toNat⟩

/-- Logical (platform-side) vip, the fields `create_vip` and the converters read. -/
structure Vip where
  id : String
  name : String
  address : String
  protocol : String
  protocol_port : Nat
  pool_id : String
  session_persistence : Option String
deriving DecidableEq, Repr

/-- Backend app-profile shape built by `_convert_app_profile`. -/
structure AppProfileShape where
  insertXForwardedFor : Bool
  name : String
  persistenceMethod : String
  serverSslEnabled : Bool
  sslPassthrough : Bool
  template : String
deriving DecidableEq, Repr

/-- Backend vip shape built by `_convert_lb_vip`. -/
structure VipShape where
  name : String
  ipAddress : String
  protocol : String
  port : Nat
  defaultPoolId : String
  applicationProfileId : String
deriving DecidableEq, Repr

/-- Backend pool body as read by `_restore_lb_pool` (only the name is used). -/
structure PoolShapeVse where
  name : String
deriving DecidableEq, Repr

/-- Backend monitor shape built by `_convert_lb_monitor` and read back by
`_restore_lb_monitor`. -/
structure MonitorShape where
  type : String
  interval : Nat
  timeout : Nat
  maxRetries : Nat
  name : String
deriving DecidableEq, Repr

/-- Health monitor, the fields `_convert_lb_monitor` reads. -/
structure Monitor where
  id : String
  type : String
  delay : Nat
  timeout : Nat
  max_retries : Nat
deriving DecidableEq, Repr

/-- Row of the vcns edge pool binding table. -/
structure PoolBinding where
  pool_id : String
  pool_vseid : String
  edge_id : String
deriving DecidableEq, Repr

/-- Row of the vcns edge vip binding table. -/
structure VipBinding where
  vip_id : String
  vip_vseid : String
  edge_id : String
  app_profileid : String
deriving DecidableEq, Repr

/-- Row of the vcns edge monitor binding table. -/
structure MonitorBinding where
  monitor_id : String
  monitor_vseid : String
  edge_id : String
deriving DecidableEq, Repr

/-- The binding store (the tables `vcns_db` maintains). -/
structure LbDb where
  pool_bindings : List PoolBinding
  vip_bindings : List VipBinding
  monitor_bindings : List MonitorBinding
deriving DecidableEq, Repr

/-- Exception raised by the vcns backend collaborator (`VcnsApiException`);
the payload keeps its identity observable. -/
structure VcnsApiException where
  response : String
deriving DecidableEq, Repr

/-- Errors the edge driver can surface: a backend exception re-raised
unchanged (`api` carries the original exception value), a `VcnsNotFound`
with its resource tag, or a Python `TypeError` from subscripting a missing
binding. -/
inductive VcnsError where
  | api (e : VcnsApiException)
  | notFound (resource : String)
  | typeError
deriving DecidableEq, Repr

/-- Modelled from the spec: `vcns_db.get_vcns_edge_pool_binding` lives in
`neutron/plugins/nicira/dbexts/vcns_db.py`, which is not under `src/`. Per
spec section 6 the BindingStore `get` yields the binding or NotFound; the
callers in `src` (`get_pool`, `update_pool`, `delete_pool`) test the result
for falsiness, so this getter returns an optional (first matching row). -/
def get_vcns_edge_pool_binding (db : LbDb) (pool_id edge_id : String) :
    Option PoolBinding :=
  (db.pool_bindings.filter
    (fun b => b.pool_id == pool_id && b.edge_id == edge_id)).head?

/-- Modelled from the spec: `vcns_db.get_vcns_edge_pool_binding_by_vseid` is
not under `src/`. Per spec section 4.1 the reverse lookup fails with
`BindingNotFound` when no reverse binding exists. -/
def get_vcns_edge_pool_binding_by_vseid (db : LbDb) (edge_id pool_vseid : String) :
    Except VcnsError PoolBinding :=
  match (db.pool_bindings.filter
      (fun b => b.edge_id == edge_id && b.pool_vseid == pool_vseid)).head? with
  | some b => .ok b
  | none => .error (.notFound "router_service_binding")

/-- Modelled from the spec: `vcns_db.get_vcns_edge_vip_binding` is not under
`src/`. Per spec section 4.2, resolving a binding by logical id fails with
`NotFound` if absent (consistently, the `src` callers subscript the result
without a falsiness check). -/
def get_vcns_edge_vip_binding (db : LbDb) (id : String) :
    Except VcnsError VipBinding :=
  match (db.vip_bindings.filter (fun b => b.vip_id == id)).head? with
  | some b => .ok b
  | none => .error (.notFound "router_service_binding")

/-- Modelled from the spec: `vcns_db.get_vcns_edge_monitor_binding` is not
under `src/`; like the pool getter it returns an optional first row (the
`src` caller `get_health_monitor` tests it for falsiness). -/
def get_vcns_edge_monitor_binding (db : LbDb) (monitor_id edge_id : String) :
    Option MonitorBinding :=
  (db.monitor_bindings.filter
    (fun b => b.monitor_id == monitor_id && b.edge_id == edge_id)).head?

/-- Modelled from the spec: `vcns_db.add_vcns_edge_vip_binding` appends the
binding row. -/
def add_vcns_edge_vip_binding (db : LbDb) (b : VipBinding) : LbDb :=
  { db with vip_bindings := db.vip_bindings ++ [b] }

/-- Modelled from the spec: `vcns_db.delete_vcns_edge_vip_binding` removes
the rows with the given vip id. -/
def delete_vcns_edge_vip_binding (db : LbDb) (id : String) : LbDb :=
  { db with vip_bindings := db.vip_bindings.filter (fun b => b.vip_id != id) }

/-- Conversion `_convert_lb_vip`: resolves the pool binding and builds the
backend vip shape; `none` models the Python `TypeError` from subscripting a
missing binding. -/
def _convert_lb_vip (db : LbDb) (edge_id : String) (vip : Vip)
    (app_profileid : String) : Option VipShape :=
  match get_vcns_edge_pool_binding db vip.pool_id edge_id with
  | none => none
  | some poolid_map =>
    some { name := vip.name
           ipAddress := vip.address
           protocol := vip.protocol
           port := vip.protocol_port
           defaultPoolId := poolid_map.pool_vseid
           applicationProfileId := app_profileid }

/-- Result of `_restore_lb_vip`. -/
structure RestoredVip where
  name : String
  address : String
  protocol : String
  protocol_port : Nat
  pool_id : String
deriving DecidableEq, Repr

/-- Conversion `_restore_lb_vip`: reverse pool lookup by backend id, then the
inverse field mapping. -/
def _restore_lb_vip (db : LbDb) (edge_id : String) (vip_vse : VipShape) :
    Except VcnsError RestoredVip :=
  match get_vcns_edge_pool_binding_by_vseid db edge_id vip_vse.defaultPoolId with
  | .error e => .error e
  | .ok pool_binding =>
    .ok { name := vip_vse.name
          address := vip_vse.ipAddress
          protocol := vip_vse.protocol
          protocol_port := vip_vse.port
          pool_id := pool_binding.pool_id }

/-- Conversion `_restore_lb_pool` (only the name is recovered). -/
def _restore_lb_pool (pool_vse : PoolShapeVse) : PoolShapeVse :=
  { name := pool_vse.name }

/-- Result of `_restore_lb_monitor`. -/
structure RestoredMonitor where
  delay : Nat
  timeout : Nat
  max_retries : Nat
  id : String
deriving DecidableEq, Repr

/-- Conversion `_restore_lb_monitor`. -/
def _restore_lb_monitor (monitor_vse : MonitorShape) : RestoredMonitor :=
  { delay := monitor_vse.interval
    timeout := monitor_vse.timeout
    max_retries := monitor_vse.maxRetries
    id := monitor_vse.name }

/-- Modelled from the spec: the protocol constants live in
`neutron/services/loadbalancer/constants.py`, which is not under `src/`;
spec section 3 names the monitor type enum values tcp, http, https. -/
def PROTOCOL_TCP : String := "tcp"

/-- Modelled from the spec: see `PROTOCOL_TCP`. -/
def PROTOCOL_HTTP : String := "http"

/-- Modelled from the spec: see `PROTOCOL_TCP`. -/
def PROTOCOL_HTTPS : String := "https"

/-- Fixed monitor type table `PROTOCOL_MAP` of the edge driver. -/
def PROTOCOL_MAP : List (String × String) :=
  [(PROTOCOL_TCP, "tcp"), (PROTOCOL_HTTP, "http"), (PROTOCOL_HTTPS, "tcp")]

/-- Python `dict.get(key, default)` over an association list. -/
def dictGet (m : List (String × String)) (key dflt : String) : String :=
  match m.find? (fun kv => kv.1 == key) with
  | some kv => kv.2
  | none => dflt

/-- Conversion `_convert_lb_monitor`: the type goes through `PROTOCOL_MAP`
with default `"http"`, delay becomes interval, the logical id becomes the
backend name. -/
def _convert_lb_monitor (monitor : Monitor) : MonitorShape :=
  { type := dictGet PROTOCOL_MAP monitor.type "http"
    interval := monitor.delay
    timeout := monitor.timeout
    maxRetries := monitor.max_retries
    name := monitor.id }

/-- Conversion `_convert_app_profile`: the session-persistence argument is
ignored; persistence is fixed to sourceip and the template to HTTP. -/
def _convert_app_profile (name : String) (_app_profile : Option String) :
    AppProfileShape :=
  { insertXForwardedFor := false
    name := name
    persistenceMethod := "sourceip"
    serverSslEnabled := false
    sslPassthrough := false
    template := "HTTP" }

/-- Response header of a backend create call; `location` is the reference
the driver extracts the new backend id from. -/
structure Header where
  location : String
deriving DecidableEq, Repr

/-- Backend management-API collaborator (`self.vcns`): each operation either
returns its result or fails with a `VcnsApiException`. -/
structure Vcns where
  create_app_profile : String → AppProfileShape → Except VcnsApiException (Header × String)
  create_vip : String → VipShape → Except VcnsApiException (Header × String)
  get_vip : String → String → Except VcnsApiException VipShape
  delete_vip : String → String → Except VcnsApiException Unit
  delete_app_profile : String → String → Except VcnsApiException Unit
  get_pool : String → String → Except VcnsApiException PoolShapeVse
  get_health_monitor : String → String → Except VcnsApiException MonitorShape

/-- One backend call, recorded in issue order by every driver entry point. -/
inductive BackendCall where
  | createAppProfile (edge_id : String) (profile : AppProfileShape)
  | createVip (edge_id : String) (vip : VipShape)
  | getVip (edge_id vip_vseid : String)
  | deleteVip (edge_id vip_vseid : String)
  | deleteAppProfile (edge_id app_profileid : String)
  | getPool (edge_id pool_vseid : String)
  | getHealthMonitor (edge_id monitor_vseid : String)
deriving DecidableEq, Repr

/-- Driver `create_vip`: create the app profile, extract its backend id from
the location header, build the vip payload referencing it, create the vip,
extract its backend id, then persist the vip binding. A backend failure is
re-raised unchanged (save-and-reraise) and leaves the store untouched. -/
def create_vip (vcns : Vcns) (db : LbDb) (edge_id : String) (vip : Vip) :
    List BackendCall × LbDb × Except VcnsError Unit :=
  let app_profile := _convert_app_profile vip.name vip.session_persistence
  match vcns.create_app_profile edge_id app_profile with
  | .error e => ([.createAppProfile edge_id app_profile], db, .error (.api e))
  | .ok (header, _) =>
    let app_profileid := locationId header.location
    match _convert_lb_vip db edge_id vip app_profileid with
    | none => ([.createAppProfile edge_id app_profile], db, .error .typeError)
    | some vip_new =>
      match vcns.create_vip edge_id vip_new with
      | .error e =>
        ([.createAppProfile edge_id app_profile, .createVip edge_id vip_new],
         db, .error (.api e))
      | .ok (header2, _) =>
        let vip_vseid := locationId header2.location
        ([.createAppProfile edge_id app_profile, .createVip edge_id vip_new],
         add_vcns_edge_vip_binding db
           { vip_id := vip.id
             vip_vseid := vip_vseid
             edge_id := edge_id
             app_profileid := app_profileid },
         .ok ())

/-- Driver `get_vip`: resolve the binding, issue the backend get, translate
back. -/
def get_vip (vcns : Vcns) (db : LbDb) (id : String) :
    List BackendCall × Except VcnsError RestoredVip :=
  match get_vcns_edge_vip_binding db id with
  | .error e => ([], .error e)
  | .ok vip_binding =>
    match vcns.get_vip vip_binding.edge_id vip_binding.vip_vseid with
    | .error e =>
      ([.getVip vip_binding.edge_id vip_binding.vip_vseid], .error (.api e))
    | .ok response =>
      ([.getVip vip_binding.edge_id vip_binding.vip_vseid],
       _restore_lb_vip db vip_binding.edge_id response)

/-- Driver `delete_vip`: resolve the binding, delete the backend vip then its
app profile, and only after both succeed remove the binding; a backend
failure is re-raised unchanged and leaves the binding intact. -/
def delete_vip (vcns : Vcns) (db : LbDb) (id : String) :
    List BackendCall × LbDb × Except VcnsError Unit :=
  match get_vcns_edge_vip_binding db id with
  | .error e => ([], db, .error e)
  | .ok vip_binding =>
    match vcns.delete_vip vip_binding.edge_id vip_binding.vip_vseid with
    | .error e =>
      ([.deleteVip vip_binding.edge_id vip_binding.vip_vseid], db, .error (.api e))
    | .ok _ =>
      match vcns.delete_app_profile vip_binding.edge_id vip_binding.app_profileid with
      | .error e =>
        ([.deleteVip vip_binding.edge_id vip_binding.vip_vseid,
          .deleteAppProfile vip_binding.edge_id vip_binding.app_profileid],
         db, .error (.api e))
      | .ok _ =>
        ([.deleteVip vip_binding.edge_id vip_binding.vip_vseid,
          .deleteAppProfile vip_binding.edge_id vip_binding.app_profileid],
         delete_vcns_edge_vip_binding db id, .ok ())

/-- Driver `get_pool`: the missing-binding check raises `VcnsNotFound` before
any backend call. -/
def get_pool (vcns : Vcns) (db : LbDb) (id edge_id : String) :
    List BackendCall × Except VcnsError PoolShapeVse :=
  match get_vcns_edge_pool_binding db id edge_id with
  | none => ([], .error (.notFound "router_service_binding"))
  | some pool_binding =>
    match vcns.get_pool edge_id pool_binding.pool_vseid with
    | .error e => ([.getPool edge_id pool_binding.pool_vseid], .error (.api e))
    | .ok response =>
      ([.getPool edge_id pool_binding.pool_vseid], .ok (_restore_lb_pool response))

/-- Driver `get_health_monitor`: the missing-binding check raises
`VcnsNotFound` before any backend call. -/
def get_health_monitor (vcns : Vcns) (db : LbDb) (id edge_id : String) :
    List BackendCall × Except VcnsError RestoredMonitor :=
  match get_vcns_edge_monitor_binding db id edge_id with
  | none => ([], .error (.notFound "router_service_binding"))
  | some monitor_binding =>
    match vcns.get_health_monitor edge_id monitor_binding.monitor_vseid with
    | .error e =>
      ([.getHealthMonitor edge_id monitor_binding.monitor_vseid], .error (.api e))
    | .ok response =>
      ([.getHealthMonitor edge_id monitor_binding.monitor_vseid],
       .ok (_restore_lb_monitor response))

end Edge

namespace Ns

/-- Fixed ip entry of a port. -/
structure FixedIp where
  subnet_id : String
  ip_address : Nat
deriving DecidableEq, Repr

/-- Network port as held by the core plugin. -/
structure Port where
  id : Nat
  name : String
  tenant_id : String
  network_id : String
  admin_state_up : Bool
  device_id : String
  device_owner : String
  fixed_ips : List FixedIp
deriving DecidableEq, Repr

/-- Logical pool, the fields the agent driver reads. -/
structure Pool where
  id : String
  tenant_id : String
  subnet_id : String
deriving DecidableEq, Repr

/-- Static collaborator environment: subnet-to-network resolution, optional
provider network attributes, the pool scheduler, and the pool-to-agent-host
lookup. -/
structure Env where
  subnet_network : String → String
  network_type : String → Option String
  segmentation_id : String → Option Nat
  schedule : Pool → Option String
  pool_agent : String → Option String

/-- Mutable state seen by the agent driver: the platform's pool records and
the core plugin's ports, with counters for fresh port ids and addresses. -/
structure St where
  pools : List Pool
  ports : List Port
  next_port_id : Nat
  next_ip : Nat
deriving DecidableEq, Repr

/-- Deterministic SNAT port name `'_lb-snatport-' + subnet_id`. -/
def snatName (subnet_id : String) : String := "_lb-snatport-" ++ subnet_id

/-- Filter used by `_get_snatport_for_subnet`: network id of the subnet,
tenant id, and the deterministic name. -/
def portMatches (env : Env) (tenant_id subnet_id : String) (p : Port) : Bool :=
  p.network_id == env.subnet_network subnet_id &&
  p.tenant_id == tenant_id &&
  p.name == snatName subnet_id

/-- Driver `_get_snatport_for_subnet`: first port matching the filter. -/
def _get_snatport_for_subnet (env : Env) (st : St) (tenant_id subnet_id : String) :
    Option Port :=
  (st.ports.filter (portMatches env tenant_id subnet_id)).head?

/-- Driver `_create_snatport_for_subnet` (called with `ip_address=None`):
creates a down port with no device owner or id and one fixed ip on the
subnet, the address chosen by the core plugin. -/
def _create_snatport_for_subnet (env : Env) (st : St) (tenant_id subnet_id : String) :
    Port × St :=
  let port : Port :=
    { id := st.next_port_id
      name := snatName subnet_id
      tenant_id := tenant_id
      network_id := env.subnet_network subnet_id
      admin_state_up := false
      device_id := ""
      device_owner := ""
      fixed_ips := [{ subnet_id := subnet_id, ip_address := st.next_ip }] }
  (port,
   { st with
     ports := st.ports ++ [port]
     next_port_id := st.next_port_id + 1
     next_ip := st.next_ip + 1 })

/-- Driver `_remove_snatport_for_subnet`: look the port up and delete it by
its id if present. -/
def _remove_snatport_for_subnet (env : Env) (st : St) (tenant_id subnet_id : String) :
    St :=
  match _get_snatport_for_subnet env st tenant_id subnet_id with
  | none => st
  | some port => { st with ports := st.ports.filter (fun q => q.id != port.id) }

/-- Driver `_get_pools_on_subnet`: pools filtered by subnet id and tenant id. -/
def _get_pools_on_subnet (st : St) (tenant_id subnet_id : String) : List Pool :=
  st.pools.filter (fun p => p.subnet_id == subnet_id && p.tenant_id == tenant_id)

/-- Network-info mapping assembled by `_get_pool_network_info` and enriched by
the SNAT helpers. -/
structure NetworkInfo where
  port_id : Option Nat
  network_id : String
  subnet_id : String
  network_type : Option String
  segmentation_id : Option Nat
  snat_ip : Option Nat
deriving DecidableEq, Repr

/-- Driver `_get_pool_network_info`: resolve subnet to network; provider
attributes are included only when present on the network. -/
def _get_pool_network_info (env : Env) (pool : Pool) : NetworkInfo :=
  let network_id := env.subnet_network pool.subnet_id
  { port_id := none
    network_id := network_id
    subnet_id := pool.subnet_id
    network_type := env.network_type network_id
    segmentation_id := env.segmentation_id network_id
    snat_ip := none }

/-- Driver `_create_snatport_for_subnet_if_not_exists`: reuse the existing
SNAT port or create one, then record its id and first fixed ip address in
the network info. -/
def _create_snatport_for_subnet_if_not_exists (env : Env) (st : St)
    (tenant_id subnet_id : String) (network_info : NetworkInfo) :
    NetworkInfo × St :=
  let found :=
    match _get_snatport_for_subnet env st tenant_id subnet_id with
    | some port => (port, st)
    | none => _create_snatport_for_subnet env st tenant_id subnet_id
  ({ network_info with
     port_id := some found.1.id
     snat_ip := (found.1.fixed_ips.head?).map (fun f => f.ip_address) },
   found.2)

/-- Driver `_remove_snatport_for_subnet_if_not_used`: recompute the pools on
the subnet and delete the SNAT port only when none remain. -/
def _remove_snatport_for_subnet_if_not_used (env : Env) (st : St)
    (tenant_id subnet_id : String) : St :=
  if (_get_pools_on_subnet st tenant_id subnet_id).isEmpty then
    _remove_snatport_for_subnet env st tenant_id subnet_id
  else st

/-- Scheduling errors of the agent driver. -/
inductive NsError where
  | noEligibleAgent (pool_id : String)
  | noActiveAgent (pool_id : String)
deriving DecidableEq, Repr

/-- Observable operations of a driver entry point, recorded in order: the
SNAT ensure, the SNAT release-if-unused, and the fire-and-forget rpc casts. -/
inductive Event where
  | ensureSnat (tenant_id subnet_id : String)
  | removeSnatIfUnused (tenant_id subnet_id : String)
  | rpcCreatePool (pool_id host : String) (netinfo : NetworkInfo)
  | rpcUpdatePool (old_pool_id pool_id host : String) (old_netinfo netinfo : NetworkInfo)
  | rpcDeletePool (pool_id host : String) (netinfo : NetworkInfo)
deriving DecidableEq, Repr

/-- True exactly on an update-pool rpc dispatch event. -/
def Event.isUpdateDispatch : Event → Bool
  | .rpcUpdatePool _ _ _ _ _ => true
  | _ => false

/-- Driver `create_pool`: schedule an agent (fail with `NoEligibleLbaasAgent`
if none), compute network info, ensure the SNAT port, dispatch the create. -/
def create_pool (env : Env) (st : St) (pool : Pool) :
    List Event × St × Except NsError Unit :=
  match env.schedule pool with
  | none => ([], st, .error (.noEligibleAgent pool.id))
  | some host =>
    let network_info := _get_pool_network_info env pool
    let ensured := _create_snatport_for_subnet_if_not_exists env st
      pool.tenant_id pool.subnet_id network_info
    ([.ensureSnat pool.tenant_id pool.subnet_id,
      .rpcCreatePool pool.id host ensured.1],
     ensured.2, .ok ())

/-- Driver `update_pool`: resolve the agent; when the subnet id changed,
ensure the SNAT port on the new subnet and release the old subnet's port if
unused, then dispatch the update; with an unchanged subnet id no SNAT
operation occurs. -/
def update_pool (env : Env) (st : St) (old_pool pool : Pool) :
    List Event × St × Except NsError Unit :=
  match env.pool_agent pool.id with
  | none => ([], st, .error (.noActiveAgent pool.id))
  | some host =>
    let old_network_info := _get_pool_network_info env old_pool
    let network_info := _get_pool_network_info env pool
    if pool.subnet_id != old_pool.subnet_id then
      let ensured := _create_snatport_for_subnet_if_not_exists env st
        pool.tenant_id pool.subnet_id network_info
      let st2 := _remove_snatport_for_subnet_if_not_used env ensured.2
        old_pool.tenant_id old_pool.subnet_id
      ([.ensureSnat pool.tenant_id pool.subnet_id,
        .removeSnatIfUnused old_pool.tenant_id old_pool.subnet_id,
        .rpcUpdatePool old_pool.id pool.id host old_network_info ensured.1],
       st2, .ok ())
    else
      ([.rpcUpdatePool old_pool.id pool.id host old_network_info network_info],
       st, .ok ())

/-- Modelled from the spec: `LoadBalancerPlugin._delete_db_pool` is platform
code outside `src/`; per spec section 4.3 pool deletion removes the logical
object's own database record. -/
def _delete_db_pool (st : St) (pool_id : String) : St :=
  { st with pools := st.pools.filter (fun q => q.id != pool_id) }

/-- Driver `delete_pool`: resolve the agent, dispatch the delete, remove the
pool's database record, then release the subnet's SNAT port if unused. -/
def delete_pool (env : Env) (st : St) (pool : Pool) :
    List Event × St × Except NsError Unit :=
  match env.pool_agent pool.id with
  | none => ([], st, .error (.noActiveAgent pool.id))
  | some host =>
    let network_info := _get_pool_network_info env pool
    let st1 := _delete_db_pool st pool.id
    let st2 := _remove_snatport_for_subnet_if_not_used env st1
      pool.tenant_id pool.subnet_id
    ([.rpcDeletePool pool.id host network_info,
      .removeSnatIfUnused pool.tenant_id pool.subnet_id],
     st2, .ok ())

/-- Pool create or delete, as invoked through the platform service. -/
inductive Op where
  | create (p : Pool)
  | del (p : Pool)
deriving DecidableEq, Repr

/-- Modelled from the spec: the platform inserts the pool record (with a
platform-generated unique id) before invoking the driver's `create_pool`; a
creation whose id collides or whose scheduling fails does not complete. -/
def platform_create_pool (env : Env) (st : St) (pool : Pool) : Option St :=
  if st.pools.any (fun q => q.id == pool.id) then none
  else
    match create_pool env { st with pools := st.pools ++ [pool] } pool with
    | (_, st', .ok _) => some st'
    | (_, _, .error _) => none

/-- Modelled from the spec: the platform resolves the pool record by id and
passes it to the driver's `delete_pool`; deleting an absent pool does not
complete. -/
def platform_delete_pool (env : Env) (st : St) (pool : Pool) : Option St :=
  if pool ∈ st.pools then
    match delete_pool env st pool with
    | (_, st', .ok _) => some st'
    | (_, _, .error _) => none
  else none

/-- Run one platform-level pool operation to completion. -/
def runOp (env : Env) (st : St) : Op → Option St
  | .create p => platform_create_pool env st p
  | .del p => platform_delete_pool env st p

/-- Run a sequence of platform-level pool operations to completion. -/
def runOps (env : Env) (st : St) : List Op → Option St
  | [] => some st
  | op :: ops =>
    match runOp env st op with
    | none => none
    | some st' => runOps env st' ops

/-- Initial state: no pools, no ports. -/
def st0 : St := { pools := [], ports := [], next_port_id := 0, next_ip := 0 }

/-- SNAT ports currently present for a tenant and subnet. -/
def snatPorts (env : Env) (st : St) (tenant_id subnet_id : String) : List Port :=
  st.ports.filter (portMatches env tenant_id subnet_id)

end Ns

namespace Cb

/-- Network-provider errors seen by the callback surface; only
`PortNotFound` is ever caught by the code. -/
inductive QErr where
  | portNotFound
  | otherError (msg : String)
deriving DecidableEq, Repr

/-- Core-plugin collaborator of the callbacks: port get and update, which may
fail with `PortNotFound` (another actor removed the port), plus the
deterministic uuid5-from-host used for the device id. -/
structure CorePlugin where
  get_port : Nat → Except QErr Ns.Port
  update_port : Nat → Ns.Port → Except QErr Unit
  uuid5_dns : String → String

/-- Callback `plug_vip_port`: no-op without a port id; a `PortNotFound` from
the port lookup is logged and swallowed; otherwise the port is marked up
with the loadbalancer device owner and a uuid5 device id, and the update is
issued unguarded. -/
def plug_vip_port (cp : CorePlugin) (port_id : Option Nat) (host : String) :
    Except QErr Unit :=
  match port_id with
  | none => .ok ()
  | some pid =>
    match cp.get_port pid with
    | .error .portNotFound => .ok ()
    | .error e => .error e
    | .ok port =>
      cp.update_port pid
        { port with
          admin_state_up := true
          device_owner := "neutron:LOADBALANCER"
          device_id := cp.uuid5_dns host }

/-- Callback `unplug_vip_port`: no-op without a port id; a `PortNotFound`
from the port lookup or from the guarded port update is logged and
swallowed; otherwise the port is marked down with cleared device fields. -/
def unplug_vip_port (cp : CorePlugin) (port_id : Option Nat) (_host : String) :
    Except QErr Unit :=
  match port_id with
  | none => .ok ()
  | some pid =>
    match cp.get_port pid with
    | .error .portNotFound => .ok ()
    | .error e => .error e
    | .ok port =>
      match cp.update_port pid
          { port with admin_state_up := false, device_owner := "", device_id := "" } with
      | .error .portNotFound => .ok ()
      | .error e => .error e
      | .ok _ => .ok ()

end Cb

namespace Rest

/-- Outcome of a REST client operation: the response is returned with its
status, or a `ServiceUnavailable` is raised either from the dedicated
401 invalid-credentials branch or from the generic invalid-response branch. -/
inductive RestOutcome where
  | success (status : Nat)
  | authFailure
  | rejected
deriving DecidableEq, Repr

/-- Client `_is_valid_response`: status below 400 is fine. -/
def _is_valid_response (response_status : Nat) : Bool :=
  response_status < 400

/-- Client `create_resource` status handling (`str(response_status) == "401"`
compares decimal representations, equivalent to the numeric comparison):
proxy mode returns unconditionally; 401 raises the invalid-credentials
`ServiceUnavailable`; any other invalid status raises the generic one. -/
def create_resource (is_proxy : Bool) (response_status : Nat) : RestOutcome :=
  if is_proxy then .success response_status
  else if response_status == 401 then .authFailure
  else if !(_is_valid_response response_status) then .rejected
  else .success response_status

/-- Client `retrieve_resource` status handling: proxy mode returns
unconditionally; 401 raises the invalid-credentials `ServiceUnavailable`;
every other status is returned, with no validity check. -/
def retrieve_resource (is_proxy : Bool) (response_status : Nat) : RestOutcome :=
  if is_proxy then .success response_status
  else if response_status == 401 then .authFailure
  else .success response_status

/-- Client `update_resource` status handling, same shape as create. -/
def update_resource (is_proxy : Bool) (response_status : Nat) : RestOutcome :=
  if is_proxy then .success response_status
  else if response_status == 401 then .authFailure
  else if !(_is_valid_response response_status) then .rejected
  else .success response_status

/-- Client `remove_resource` status handling, same shape as create. -/
def remove_resource (is_proxy : Bool) (response_status : Nat) : RestOutcome :=
  if is_proxy then .success response_status
  else if response_status == 401 then .authFailure
  else if !(_is_valid_response response_status) then .rejected
  else .success response_status

end Rest

namespace Edge

/-- Backend vip payload that `_convert_lb_vip` produces when the pool binding
resolves to `pb`; the given profile id is placed as `applicationProfileId`. -/
def vipPayload (vip : Vip) (pb : PoolBinding) (app_profileid : String) : VipShape :=
  { name := vip.name
    ipAddress := vip.address
    protocol := vip.protocol
    port := vip.protocol_port
    defaultPoolId := pb.pool_vseid
    applicationProfileId := app_profileid }

end Edge

namespace Ns

/-- Well-formedness carried through pool operations: port ids are below the
fresh counter and pairwise distinct, pool ids are pairwise distinct, and for
every tenant and subnet the SNAT port count is one when some pool of the
tenant references the subnet and zero otherwise. -/
def Wf (env : Env) (st : St) : Prop :=
  (∀ p ∈ st.ports, p.id < st.next_port_id) ∧
  st.ports.Pairwise (fun p q => p.id ≠ q.id) ∧
  st.pools.Pairwise (fun p q => p.id ≠ q.id) ∧
  ∀ tenant_id subnet_id,
    (snatPorts env st tenant_id subnet_id).length =
      if (_get_pools_on_subnet st tenant_id subnet_id).isEmpty then 0 else 1

end Ns

section ConcreteInputs

/-- Concrete pool binding used by the witnesses. -/
def pbA : Edge.PoolBinding := { pool_id := "p1", pool_vseid := "P1", edge_id := "e1" }

/-- Concrete binding store holding only the pool binding. -/
def dbA : Edge.LbDb := { pool_bindings := [pbA], vip_bindings := [], monitor_bindings := [] }

/-- Concrete vip referencing the bound pool. -/
def vipA : Edge.Vip :=
  { id := "v1", name := "vip1", address := "10.0.0.1", protocol := "HTTP",
    protocol_port := 80, pool_id := "p1", session_persistence := none }

/-- Concrete vip binding as persisted by a successful `create_vip`. -/
def vbA : Edge.VipBinding :=
  { vip_id := "v1", vip_vseid := "V1", edge_id := "e1", app_profileid := "ap1" }

/-- Concrete binding store holding the pool and vip bindings. -/
def dbV : Edge.LbDb := { pool_bindings := [pbA], vip_bindings := [vbA], monitor_bindings := [] }

/-- Binding store with no rows at all. -/
def dbEmpty : Edge.LbDb := { pool_bindings := [], vip_bindings := [], monitor_bindings := [] }

/-- Concrete backend vip body. -/
def vipShapeA : Edge.VipShape :=
  { name := "vip1", ipAddress := "10.0.0.1", protocol := "HTTP", port := 80,
    defaultPoolId := "P1", applicationProfileId := "ap1" }

/-- Concrete backend monitor body. -/
def monShapeA : Edge.MonitorShape :=
  { type := "http", interval := 5, timeout := 3, maxRetries := 2, name := "m1" }

/-- Backend collaborator on which every call succeeds; the create responses
carry location references ending in `ap1` and `V1`. -/
def vcnsOk : Edge.Vcns :=
  { create_app_profile := fun _ _ => .ok ({ location := "/lb/applicationProfile/ap1" }, "ok")
    create_vip := fun _ _ => .ok ({ location := "/lb/virtualServer/V1" }, "ok")
    get_vip := fun _ _ => .ok vipShapeA
    delete_vip := fun _ _ => .ok ()
    delete_app_profile := fun _ _ => .ok ()
    get_pool := fun _ _ => .ok { name := "pool1" }
    get_health_monitor := fun _ _ => .ok monShapeA }

/-- Concrete backend exception used to observe error identity. -/
def apiBoom : Edge.VcnsApiException := { response := "500" }

/-- Backend collaborator on which only the app-profile delete fails. -/
def vcnsProfileFail : Edge.Vcns :=
  { vcnsOk with delete_app_profile := fun _ _ => .error apiBoom }

/-- Concrete https health monitor. -/
def monA : Edge.Monitor := { id := "m1", type := "https", delay := 5, timeout := 3, max_retries := 2 }

/-- Concrete agent-driver environment: one network, no provider attributes,
scheduling and agent lookup always give host `h1`. -/
def envA : Ns.Env :=
  { subnet_network := fun _ => "n1"
    network_type := fun _ => none
    segmentation_id := fun _ => none
    schedule := fun _ => some "h1"
    pool_agent := fun _ => some "h1" }

/-- First pool on subnet s1. -/
def poolA : Ns.Pool := { id := "p1", tenant_id := "t1", subnet_id := "s1" }

/-- Second pool on subnet s1. -/
def poolB : Ns.Pool := { id := "p2", tenant_id := "t1", subnet_id := "s1" }

/-- Scenario C: two creates on the same bare subnet, then both deletes. -/
def opsC : List Ns.Op := [.create poolA, .create poolB, .del poolA, .del poolB]

/-- Final state of scenario C. -/
def stC : Ns.St := { pools := [], ports := [], next_port_id := 1, next_ip := 1 }

/-- Scenario D old pool record (subnet s1). -/
def oldD : Ns.Pool := { id := "p1", tenant_id := "t1", subnet_id := "s1" }

/-- Scenario D updated pool record (moved to subnet s2). -/
def newD : Ns.Pool := { id := "p1", tenant_id := "t1", subnet_id := "s2" }

/-- Scenario D remaining consumer on subnet s1. -/
def otherD : Ns.Pool := { id := "q1", tenant_id := "t1", subnet_id := "s1" }

/-- Existing SNAT port of subnet s1. -/
def portD : Ns.Port :=
  { id := 0, name := Ns.snatName "s1", tenant_id := "t1", network_id := "n1",
    admin_state_up := false, device_id := "", device_owner := "",
    fixed_ips := [{ subnet_id := "s1", ip_address := 1 }] }

/-- Scenario D state at update time: the pool record already moved to s2,
another pool still on s1, and s1's SNAT port present. -/
def stD : Ns.St := { pools := [newD, otherD], ports := [portD], next_port_id := 1, next_ip := 2 }

/-- Network info dispatched for the old pool in scenario D. -/
def niOldD : Ns.NetworkInfo :=
  { port_id := none, network_id := "n1", subnet_id := "s1",
    network_type := none, segmentation_id := none, snat_ip := none }

/-- Network info dispatched for the updated pool in scenario D: the SNAT port
freshly created on s2. -/
def niNewD : Ns.NetworkInfo :=
  { port_id := some 1, network_id := "n1", subnet_id := "s2",
    network_type := none, segmentation_id := none, snat_ip := some 2 }

/-- Core plugin on which the port is already gone. -/
def cpMissing : Cb.CorePlugin :=
  { get_port := fun _ => .error .portNotFound
    update_port := fun _ _ => .ok ()
    uuid5_dns := fun h => "uuid-" ++ h }

/-- Core plugin on which the port lookup succeeds but the update races with a
concurrent removal and fails with PortNotFound. -/
def cpRace : Cb.CorePlugin :=
  { get_port := fun _ => .ok portD
    update_port := fun _ _ => .error .portNotFound
    uuid5_dns := fun h => "uuid-" ++ h }

end ConcreteInputs

theorem py_rfindIdx_eq_none (s : List Char) (c : Char) (h : ∀ x ∈ s, x ≠ c) :
    Py.rfindIdx s c = none := by
  induction s with
  | nil => rfl
  | cons a l ih =>
    have ha : a ≠ c := h a (List.mem_cons_self a l)
    have hl : ∀ x ∈ l, x ≠ c := fun x hx => h x (List.mem_cons_of_mem a hx)
    simp [Py.rfindIdx, ih hl, ha]

theorem py_rfindIdx_append_last (pre suf : List Char) (c : Char) (h : ∀ x ∈ suf, x ≠ c) :
    Py.rfindIdx (pre ++ c :: suf) c = some pre.length := by
  induction pre with
  | nil => simp [Py.rfindIdx, py_rfindIdx_eq_none suf c h]
  | cons a pre ih => simp [Py.rfindIdx, ih]

/-- C7: the identifier extracted from a location reference is exactly the
substring after the final slash, and the whole string when it has no slash. -/
theorem edge_locationId_last_segment :
    (∀ s : String, (∀ c ∈ s.data, c ≠ '/') → Edge.locationId s = s) ∧
    (∀ pre suf : List Char, (∀ c ∈ suf, c ≠ '/') →
      Edge.locationId (String.mk (pre ++ '/' :: suf)) = String.mk suf) := by
  constructor
  · intro s h
    unfold Edge.locationId Py.pyRfind
    rw [py_rfindIdx_eq_none s.data '/' h]
    rfl
  · intro pre suf h
    unfold Edge.locationId Py.pyRfind
    rw [show (String.mk (pre ++ '/' :: suf)).data = pre ++ '/' :: suf from rfl]
    rw [py_rfindIdx_append_last pre suf '/' h]
    have h1 : ((pre.length : Int) + 1).toNat = pre.length + 1 := by omega
    simp only [h1]
    rw [show pre ++ '/' :: suf = (pre ++ ['/']) ++ suf by simp]
    rw [show pre.length + 1 = (pre ++ ['/']).length by simp]
    rw [List.drop_left]

/-- C7 witness: concrete evaluations of the two shapes. -/
theorem edge_locationId_last_segment_witness :
    Edge.locationId "abc123" = "abc123" ∧
    Edge.locationId (String.mk ("http://h/lb".data ++ '/' :: "abc123".data)) =
      String.mk "abc123".data := by
  constructor
  · exact edge_locationId_last_segment.1 "abc123" (by decide)
  · exact edge_locationId_last_segment.2 "http://h/lb".data "abc123".data (by decide)

/-- C9 (amended): for a non-proxy client, create, update and remove treat a
status below 400 as success, 401 as the invalid-credentials failure and any
other status of 400 or above as the generic rejection; retrieve treats 401
as the invalid-credentials failure but returns the response for every other
status, including those of 400 or above. -/
theorem rest_status_handling (status : Nat) :
    (status < 400 →
      Rest.create_resource false status = .success status ∧
      Rest.update_resource false status = .success status ∧
      Rest.remove_resource false status = .success status ∧
      Rest.retrieve_resource false status = .success status) ∧
    (status = 401 →
      Rest.create_resource false status = .authFailure ∧
      Rest.update_resource false status = .authFailure ∧
      Rest.remove_resource false status = .authFailure ∧
      Rest.retrieve_resource false status = .authFailure) ∧
    (400 ≤ status → status ≠ 401 →
      Rest.create_resource false status = .rejected ∧
      Rest.update_resource false status = .rejected ∧
      Rest.remove_resource false status = .rejected ∧
      Rest.retrieve_resource false status = .success status) := by
  refine ⟨fun h => ?_, fun h => ?_, fun h h2 => ?_⟩
  · have h401 : status ≠ 401 := by omega
    simp [Rest.create_resource, Rest.update_resource, Rest.remove_resource,
      Rest.retrieve_resource, Rest._is_valid_response, h, h401]
  · subst h
    simp [Rest.create_resource, Rest.update_resource, Rest.remove_resource,
      Rest.retrieve_resource]
  · have hnv : ¬ status < 400 := by omega
    simp [Rest.create_resource, Rest.update_resource, Rest.remove_resource,
      Rest.retrieve_resource, Rest._is_valid_response, hnv, h2]

/-- C9 counterexample: a retrieve with status 404 on a non-proxy client does
not raise the generic rejection; the response is returned. -/
theorem rest_retrieve_invalid_status_returned :
    Rest.retrieve_resource false 404 = .success 404 ∧
    Rest.retrieve_resource false 404 ≠ .rejected ∧
    Rest.retrieve_resource false 404 ≠ .authFailure := by decide

/-- C9 witness: concrete evaluation at status 404. -/
theorem rest_status_handling_witness :
    (400 ≤ 404 ∧ (404 : Nat) ≠ 401) ∧
    Rest.create_resource false 404 = .rejected ∧
    Rest.retrieve_resource false 404 = .success 404 := by
  refine ⟨by omega, ?_, ?_⟩
  · exact ((rest_status_handling 404).2.2 (by omega) (by omega)).1
  · exact ((rest_status_handling 404).2.2 (by omega) (by omega)).2.2.2

/-- C10: a health monitor of type https is converted with backend type tcp,
not https, through the fixed `PROTOCOL_MAP` table. -/
theorem edge_https_monitor_demoted_to_tcp (monitor : Edge.Monitor)
    (h : monitor.type = Edge.PROTOCOL_HTTPS) :
    (Edge._convert_lb_monitor monitor).type = "tcp" ∧
    (Edge._convert_lb_monitor monitor).type ≠ "https" := by
  have hty : (Edge._convert_lb_monitor monitor).type =
      Edge.dictGet Edge.PROTOCOL_MAP monitor.type "http" := rfl
  rw [hty, h]
  exact ⟨by decide, by decide⟩

/-- C10 witness: concrete https monitor. -/
theorem edge_https_monitor_demoted_to_tcp_witness :
    monA.type = Edge.PROTOCOL_HTTPS ∧
    (Edge._convert_lb_monitor monA).type = "tcp" ∧
    (Edge._convert_lb_monitor monA).type ≠ "https" :=
  ⟨rfl, edge_https_monitor_demoted_to_tcp monA rfl⟩

/-- C4: for vip, pool and health monitor alike, the edge driver's get raises
the NotFound error when the logical id has no binding, with an empty backend
call trace. -/
theorem edge_get_notfound_before_backend (vcns : Edge.Vcns) (db : Edge.LbDb)
    (id edge_id : String) :
    (db.vip_bindings.filter (fun b => b.vip_id == id) = [] →
      Edge.get_vip vcns db id =
        ([], .error (.notFound "router_service_binding"))) ∧
    (db.pool_bindings.filter (fun b => b.pool_id == id && b.edge_id == edge_id) = [] →
      Edge.get_pool vcns db id edge_id =
        ([], .error (.notFound "router_service_binding"))) ∧
    (db.monitor_bindings.filter (fun b => b.monitor_id == id && b.edge_id == edge_id) = [] →
      Edge.get_health_monitor vcns db id edge_id =
        ([], .error (.notFound "router_service_binding"))) := by
  refine ⟨fun h => ?_, fun h => ?_, fun h => ?_⟩
  · simp [Edge.get_vip, Edge.get_vcns_edge_vip_binding, h]
  · simp [Edge.get_pool, Edge.get_vcns_edge_pool_binding, h]
  · simp [Edge.get_health_monitor, Edge.get_vcns_edge_monitor_binding, h]

/-- C4 witness: concrete empty binding store. -/
theorem edge_get_notfound_before_backend_witness :
    dbEmpty.vip_bindings.filter (fun b => b.vip_id == "x") = [] ∧
    Edge.get_vip vcnsOk dbEmpty "x" = ([], .error (.notFound "router_service_binding")) ∧
    Edge.get_pool vcnsOk dbEmpty "x" "e1" = ([], .error (.notFound "router_service_binding")) ∧
    Edge.get_health_monitor vcnsOk dbEmpty "x" "e1" =
      ([], .error (.notFound "router_service_binding")) := by
  have h := edge_get_notfound_before_backend vcnsOk dbEmpty "x" "e1"
  exact ⟨rfl, h.1 rfl, h.2.1 rfl, h.2.2 rfl⟩

/-- C8: converting a vip to the backend shape and back recovers address,
protocol and protocol_port exactly, and recovers pool_id whenever the
forward and reverse binding lookups are mutually inverse. -/
theorem edge_vip_roundtrip (db : Edge.LbDb) (edge_id : String) (vip : Edge.Vip)
    (pb pb2 : Edge.PoolBinding) (app_profileid : String)
    (h1 : Edge.get_vcns_edge_pool_binding db vip.pool_id edge_id = some pb)
    (h2 : Edge.get_vcns_edge_pool_binding_by_vseid db edge_id pb.pool_vseid = .ok pb2) :
    Edge._convert_lb_vip db edge_id vip app_profileid =
      some (Edge.vipPayload vip pb app_profileid) ∧
    Edge._restore_lb_vip db edge_id (Edge.vipPayload vip pb app_profileid) =
      .ok { name := vip.name, address := vip.address, protocol := vip.protocol,
            protocol_port := vip.protocol_port, pool_id := pb2.pool_id } ∧
    (pb2.pool_id = vip.pool_id →
      Edge._restore_lb_vip db edge_id (Edge.vipPayload vip pb app_profileid) =
        .ok { name := vip.name, address := vip.address, protocol := vip.protocol,
              protocol_port := vip.protocol_port, pool_id := vip.pool_id }) := by
  refine ⟨?_, ?_, fun h3 => ?_⟩
  · simp [Edge._convert_lb_vip, h1, Edge.vipPayload]
  · simp [Edge._restore_lb_vip, Edge.vipPayload, h2]
  · simp [Edge._restore_lb_vip, Edge.vipPayload, h2, h3]

/-- C8 witness: concrete round trip through the binding store `dbA`. -/
theorem edge_vip_roundtrip_witness :
    Edge.get_vcns_edge_pool_binding dbA vipA.pool_id "e1" = some pbA ∧
    Edge.get_vcns_edge_pool_binding_by_vseid dbA "e1" pbA.pool_vseid = .ok pbA ∧
    Edge._restore_lb_vip dbA "e1" (Edge.vipPayload vipA pbA "ap1") =
      .ok { name := "vip1", address := "10.0.0.1", protocol := "HTTP",
            protocol_port := 80, pool_id := "p1" } := by
  refine ⟨by decide, rfl, ?_⟩
  have h := edge_vip_roundtrip dbA "e1" vipA pbA pbA "ap1" (by decide) rfl
  exact h.2.2 rfl

/-- C1: vip creation issues exactly the app-profile create then the vip
create, in that order; the backend id extracted from the profile response
location is placed in the vip payload as applicationProfileId; the vip
binding is persisted exactly when both backend calls succeed, and a failure
of either call leaves the store unchanged and re-raises the backend
exception unchanged. -/
theorem edge_create_vip_profile_then_vip_then_binding
    (vcns : Edge.Vcns) (db : Edge.LbDb) (edge_id : String) (vip : Edge.Vip)
    (pb : Edge.PoolBinding)
    (hpb : Edge.get_vcns_edge_pool_binding db vip.pool_id edge_id = some pb) :
    (∀ e, vcns.create_app_profile edge_id
        (Edge._convert_app_profile vip.name vip.session_persistence) = .error e →
      Edge.create_vip vcns db edge_id vip =
        ([.createAppProfile edge_id
            (Edge._convert_app_profile vip.name vip.session_persistence)],
         db, .error (.api e))) ∧
    (∀ hdr body e, vcns.create_app_profile edge_id
        (Edge._convert_app_profile vip.name vip.session_persistence) = .ok (hdr, body) →
      vcns.create_vip edge_id
        (Edge.vipPayload vip pb (Edge.locationId hdr.location)) = .error e →
      Edge.create_vip vcns db edge_id vip =
        ([.createAppProfile edge_id
            (Edge._convert_app_profile vip.name vip.session_persistence),
          .createVip edge_id (Edge.vipPayload vip pb (Edge.locationId hdr.location))],
         db, .error (.api e))) ∧
    (∀ hdr body hdr2 body2, vcns.create_app_profile edge_id
        (Edge._convert_app_profile vip.name vip.session_persistence) = .ok (hdr, body) →
      vcns.create_vip edge_id
        (Edge.vipPayload vip pb (Edge.locationId hdr.location)) = .ok (hdr2, body2) →
      Edge.create_vip vcns db edge_id vip =
        ([.createAppProfile edge_id
            (Edge._convert_app_profile vip.name vip.session_persistence),
          .createVip edge_id (Edge.vipPayload vip pb (Edge.locationId hdr.location))],
         Edge.add_vcns_edge_vip_binding db
           { vip_id := vip.id
             vip_vseid := Edge.locationId hdr2.location
             edge_id := edge_id
             app_profileid := Edge.locationId hdr.location },
         .ok ())) := by
  have hconv : ∀ ap, Edge._convert_lb_vip db edge_id vip ap =
      some (Edge.vipPayload vip pb ap) := by
    intro ap
    simp [Edge._convert_lb_vip, hpb, Edge.vipPayload]
  refine ⟨fun e he => ?_, fun hdr body e hok he => ?_,
    fun hdr body hdr2 body2 hok hok2 => ?_⟩
  · simp [Edge.create_vip, he]
  · simp [Edge.create_vip, hok, hconv, he]
  · simp [Edge.create_vip, hok, hconv, hok2]

/-- C1 witness: concrete successful creation with the expected trace, payload
threading and persisted binding. -/
theorem edge_create_vip_witness :
    Edge.get_vcns_edge_pool_binding dbA vipA.pool_id "e1" = some pbA ∧
    Edge.create_vip vcnsOk dbA "e1" vipA =
      ([.createAppProfile "e1" (Edge._convert_app_profile "vip1" none),
        .createVip "e1" (Edge.vipPayload vipA pbA "ap1")],
       dbV, .ok ()) := by
  refine ⟨by decide, ?_⟩
  have h := (edge_create_vip_profile_then_vip_then_binding vcnsOk dbA "e1" vipA pbA
      (by decide)).2.2
    { location := "/lb/applicationProfile/ap1" } "ok"
    { location := "/lb/virtualServer/V1" } "ok" rfl rfl
  exact h.trans rfl

/-- C2: vip deletion issues the backend vip delete then the app-profile
delete; the binding is removed exactly when both succeed, and a failure of
either call leaves the store unchanged and re-raises the backend exception
unchanged. -/
theorem edge_delete_vip_binding_kept_until_success
    (vcns : Edge.Vcns) (db : Edge.LbDb) (id : String) (b : Edge.VipBinding)
    (hb : Edge.get_vcns_edge_vip_binding db id = .ok b) :
    (∀ e, vcns.delete_vip b.edge_id b.vip_vseid = .error e →
      Edge.delete_vip vcns db id =
        ([.deleteVip b.edge_id b.vip_vseid], db, .error (.api e))) ∧
    (∀ e, vcns.delete_vip b.edge_id b.vip_vseid = .ok () →
      vcns.delete_app_profile b.edge_id b.app_profileid = .error e →
      Edge.delete_vip vcns db id =
        ([.deleteVip b.edge_id b.vip_vseid,
          .deleteAppProfile b.edge_id b.app_profileid],
         db, .error (.api e))) ∧
    (vcns.delete_vip b.edge_id b.vip_vseid = .ok () →
      vcns.delete_app_profile b.edge_id b.app_profileid = .ok () →
      Edge.delete_vip vcns db id =
        ([.deleteVip b.edge_id b.vip_vseid,
          .deleteAppProfile b.edge_id b.app_profileid],
         Edge.delete_vcns_edge_vip_binding db id, .ok ())) := by
  refine ⟨fun e he => ?_, fun e h1 h2 => ?_, fun h1 h2 => ?_⟩
  · simp [Edge.delete_vip, hb, he]
  · simp [Edge.delete_vip, hb, h1, h2]
  · simp [Edge.delete_vip, hb, h1, h2]

/-- C2 witness: the app-profile delete fails; the binding survives and the
original backend exception propagates. -/
theorem edge_delete_vip_witness :
    Edge.get_vcns_edge_vip_binding dbV "v1" = .ok vbA ∧
    Edge.delete_vip vcnsProfileFail dbV "v1" =
      ([.deleteVip "e1" "V1", .deleteAppProfile "e1" "ap1"],
       dbV, .error (.api apiBoom)) := by
  refine ⟨rfl, ?_⟩
  have h := (edge_delete_vip_binding_kept_until_success vcnsProfileFail dbV "v1" vbA
      rfl).2.1 apiBoom rfl rfl
  exact h.trans rfl

/-- C6 (amended): a PortNotFound during unplug is swallowed at both the port
lookup and the port update; during plug a PortNotFound from the initial
lookup is likewise swallowed as a no-op, and only a PortNotFound raised by
the port update propagates. -/
theorem cb_portnotfound_swallow_matrix (cp : Cb.CorePlugin) (pid : Nat) (host : String) :
    (cp.get_port pid = .error .portNotFound →
      Cb.plug_vip_port cp (some pid) host = .ok () ∧
      Cb.unplug_vip_port cp (some pid) host = .ok ()) ∧
    (∀ port, cp.get_port pid = .ok port →
      cp.update_port pid
        { port with
          admin_state_up := true
          device_owner := "neutron:LOADBALANCER"
          device_id := cp.uuid5_dns host } = .error .portNotFound →
      Cb.plug_vip_port cp (some pid) host = .error .portNotFound) ∧
    (∀ port, cp.get_port pid = .ok port →
      cp.update_port pid
        { port with admin_state_up := false, device_owner := "", device_id := "" } =
          .error .portNotFound →
      Cb.unplug_vip_port cp (some pid) host = .ok ()) := by
  refine ⟨fun h => ⟨?_, ?_⟩, fun port h hu => ?_, fun port h hu => ?_⟩
  · simp [Cb.plug_vip_port, h]
  · simp [Cb.unplug_vip_port, h]
  · simp [Cb.plug_vip_port, h, hu]
  · simp [Cb.unplug_vip_port, h, hu]

/-- C6 counterexample: the port is absent, so PortNotFound arises during the
plug operation, yet plug completes as a no-op instead of propagating. -/
theorem cb_plug_portnotfound_not_propagated :
    cpMissing.get_port 1 = .error .portNotFound ∧
    Cb.plug_vip_port cpMissing (some 1) "h1" = .ok () :=
  ⟨rfl, rfl⟩

/-- C6 witness: the racy update raises PortNotFound, which propagates from
plug but is swallowed by unplug. -/
theorem cb_portnotfound_swallow_matrix_witness :
    cpRace.get_port 1 = .ok portD ∧
    Cb.plug_vip_port cpRace (some 1) "h1" = .error .portNotFound ∧
    Cb.unplug_vip_port cpRace (some 1) "h1" = .ok () := by
  have h := cb_portnotfound_swallow_matrix cpRace 1 "h1"
  exact ⟨rfl, h.2.1 portD rfl rfl, h.2.2 portD rfl rfl⟩

/-- C5 (amended): when the subnet id changed, update_pool ensures the SNAT
port on the new subnet, then releases the old subnet's port if unused, and
only then dispatches the update rpc; the ensure on the new subnet always
precedes the release on the old one; with an unchanged subnet id no SNAT
operation occurs. -/
theorem ns_update_pool_snat_order (env : Ns.Env) (st : Ns.St)
    (old_pool pool : Ns.Pool) (host : String)
    (h : env.pool_agent pool.id = some host) :
    (pool.subnet_id ≠ old_pool.subnet_id →
      (Ns.update_pool env st old_pool pool).1 =
        [.ensureSnat pool.tenant_id pool.subnet_id,
         .removeSnatIfUnused old_pool.tenant_id old_pool.subnet_id,
         .rpcUpdatePool old_pool.id pool.id host
           (Ns._get_pool_network_info env old_pool)
           (Ns._create_snatport_for_subnet_if_not_exists env st pool.tenant_id
             pool.subnet_id (Ns._get_pool_network_info env pool)).1]) ∧
    (pool.subnet_id = old_pool.subnet_id →
      (Ns.update_pool env st old_pool pool).1 =
        [.rpcUpdatePool old_pool.id pool.id host
          (Ns._get_pool_network_info env old_pool)
          (Ns._get_pool_network_info env pool)]) := by
  constructor
  · intro hne
    simp [Ns.update_pool, h, hne]
  · intro heq
    simp [Ns.update_pool, h, heq]

/-- C5 counterexample: a concrete subnet-changing update whose trace contains
the release of the old subnet's port and the update dispatch, but at no pair
of positions does the dispatch precede the release. -/
theorem ns_update_pool_dispatch_after_release :
    newD.subnet_id ≠ oldD.subnet_id ∧
    (∃ k : Fin (Ns.update_pool envA stD oldD newD).1.length,
      (Ns.update_pool envA stD oldD newD).1.get k = .removeSnatIfUnused "t1" "s1") ∧
    (∃ j : Fin (Ns.update_pool envA stD oldD newD).1.length,
      ((Ns.update_pool envA stD oldD newD).1.get j).isUpdateDispatch = true) ∧
    ¬ (∃ j k : Fin (Ns.update_pool envA stD oldD newD).1.length,
        j < k ∧ ((Ns.update_pool envA stD oldD newD).1.get j).isUpdateDispatch = true ∧
        (Ns.update_pool envA stD oldD newD).1.get k = .removeSnatIfUnused "t1" "s1") := by
  decide

/-- C5 witness: concrete evaluation of the amended order for scenario D. -/
theorem ns_update_pool_snat_order_witness :
    envA.pool_agent newD.id = some "h1" ∧
    (Ns.update_pool envA stD oldD newD).1 =
      [.ensureSnat "t1" "s2", .removeSnatIfUnused "t1" "s1",
       .rpcUpdatePool "p1" "p1" "h1" niOldD niNewD] := by
  refine ⟨rfl, ?_⟩
  have h := (ns_update_pool_snat_order envA stD oldD newD "h1" rfl).1 (by decide)
  exact h.trans (by decide)

theorem ns_isEmpty_false {α : Type} {l : List α} (h : l ≠ []) : l.isEmpty = false := by
  cases l with
  | nil => exact absurd rfl h
  | cons a l => rfl

theorem ns_snatName_inj {a b : String} (h : Ns.snatName a = Ns.snatName b) : a = b := by
  have hd := congrArg String.data h
  simp only [Ns.snatName, String.data_append] at hd
  have h2 : a.data = b.data := List.append_cancel_left hd
  cases a with
  | mk la =>
    cases b with
    | mk lb => exact congrArg String.mk (by simpa using h2)

theorem ns_key_unique {α β : Type} (key : α → β) :
    ∀ (l : List α), l.Pairwise (fun x y => key x ≠ key y) →
      ∀ a ∈ l, ∀ b ∈ l, key a = key b → a = b := by
  intro l hl
  induction hl with
  | nil => intro a ha; exact absurd ha (List.not_mem_nil a)
  | @cons x l hx _ ih =>
    intro a ha b hb hk
    rcases List.mem_cons.mp ha with rfl | ha2
    · rcases List.mem_cons.mp hb with rfl | hb2
      · rfl
      · exact absurd hk (hx b hb2)
    · rcases List.mem_cons.mp hb with rfl | hb2
      · exact absurd hk.symm (hx a ha2)
      · exact ih a ha2 b hb2 hk

theorem ns_filter_comm {α : Type} (l : List α) (f g : α → Bool) :
    (l.filter f).filter g = (l.filter g).filter f := by
  induction l with
  | nil => rfl
  | cons a l ih =>
    by_cases hf : f a <;> by_cases hg : g a <;>
      simp [List.filter_cons, hf, hg, ih]

theorem ns_portMatches_true_iff (env : Ns.Env) (t s : String) (p : Ns.Port) :
    Ns.portMatches env t s p = true ↔
      (p.network_id = env.subnet_network s ∧ p.tenant_id = t ∧ p.name = Ns.snatName s) := by
  simp [Ns.portMatches, Bool.and_eq_true, beq_iff_eq, and_assoc]

theorem ns_portMatches_functional (env : Ns.Env) {t s t2 s2 : String} {p : Ns.Port}
    (h1 : Ns.portMatches env t s p = true) (h2 : Ns.portMatches env t2 s2 p = true) :
    t = t2 ∧ s = s2 := by
  rw [ns_portMatches_true_iff] at h1 h2
  obtain ⟨_, ht1, hn1⟩ := h1
  obtain ⟨_, ht2, hn2⟩ := h2
  exact ⟨ht1.symm.trans ht2, ns_snatName_inj (hn1.symm.trans hn2)⟩

theorem ns_portMatches_new (env : Ns.Env) (t s t2 s2 : String) (n ip : Nat) :
    Ns.portMatches env t2 s2
      { id := n, name := Ns.snatName s, tenant_id := t,
        network_id := env.subnet_network s, admin_state_up := false,
        device_id := "", device_owner := "",
        fixed_ips := [{ subnet_id := s, ip_address := ip }] } = true ↔
      (t2 = t ∧ s2 = s) := by
  rw [ns_portMatches_true_iff]
  constructor
  · rintro ⟨_, ht, hname⟩
    have hs := ns_snatName_inj hname
    exact ⟨ht.symm, hs.symm⟩
  · rintro ⟨rfl, rfl⟩
    exact ⟨rfl, rfl, rfl⟩

theorem ns_isEmpty_ne_true {α : Type} {l : List α} (h : l ≠ []) : ¬ l.isEmpty = true := by
  cases l with
  | nil => exact absurd rfl h
  | cons a l => simp

theorem ns_createPort_fst (env : Ns.Env) (st : Ns.St) (t s : String) :
    (Ns._create_snatport_for_subnet env st t s).1 =
      { id := st.next_port_id
        name := Ns.snatName s
        tenant_id := t
        network_id := env.subnet_network s
        admin_state_up := false
        device_id := ""
        device_owner := ""
        fixed_ips := [{ subnet_id := s, ip_address := st.next_ip }] } := rfl

theorem ns_createPort_matches (env : Ns.Env) (st : Ns.St) (t s t2 s2 : String) :
    Ns.portMatches env t2 s2 (Ns._create_snatport_for_subnet env st t s).1 = true ↔
      (t2 = t ∧ s2 = s) :=
  ns_portMatches_new env t s t2 s2 st.next_port_id st.next_ip

theorem ns_createPort_snd (env : Ns.Env) (st : Ns.St) (t s : String) :
    (Ns._create_snatport_for_subnet env st t s).2 =
      { st with
        ports := st.ports ++ [(Ns._create_snatport_for_subnet env st t s).1]
        next_port_id := st.next_port_id + 1
        next_ip := st.next_ip + 1 } := rfl

theorem ns_ensure_snd_found (env : Ns.Env) (st : Ns.St) (t s : String)
    (ni : Ns.NetworkInfo) (p : Ns.Port)
    (h : Ns._get_snatport_for_subnet env st t s = some p) :
    (Ns._create_snatport_for_subnet_if_not_exists env st t s ni).2 = st := by
  simp [Ns._create_snatport_for_subnet_if_not_exists, h]

theorem ns_ensure_snd_missing (env : Ns.Env) (st : Ns.St) (t s : String)
    (ni : Ns.NetworkInfo)
    (h : Ns._get_snatport_for_subnet env st t s = none) :
    (Ns._create_snatport_for_subnet_if_not_exists env st t s ni).2 =
      (Ns._create_snatport_for_subnet env st t s).2 := by
  simp [Ns._create_snatport_for_subnet_if_not_exists, h]

theorem ns_wf_create (env : Ns.Env) (st : Ns.St) (pool : Ns.Pool) (ni : Ns.NetworkInfo)
    (hwf : Ns.Wf env st) (hfresh : ∀ q ∈ st.pools, q.id ≠ pool.id) :
    Ns.Wf env (Ns._create_snatport_for_subnet_if_not_exists env
      { st with pools := st.pools ++ [pool] } pool.tenant_id pool.subnet_id ni).2 := by
  obtain ⟨hbound, hports, hpools, hcount⟩ := hwf
  have hpoolpw : (st.pools ++ [pool]).Pairwise (fun p q => p.id ≠ q.id) := by
    rw [List.pairwise_append]
    refine ⟨hpools, List.pairwise_singleton _ _, ?_⟩
    intro a ha b hb
    rw [List.mem_singleton] at hb
    subst hb
    exact hfresh a ha
  cases hfind : Ns._get_snatport_for_subnet env { st with pools := st.pools ++ [pool] }
      pool.tenant_id pool.subnet_id with
  | some p =>
    rw [ns_ensure_snd_found env _ _ _ ni p hfind]
    refine ⟨hbound, hports, hpoolpw, ?_⟩
    intro t s
    show (st.ports.filter (Ns.portMatches env t s)).length =
      if ((st.pools ++ [pool]).filter
          (fun q => q.subnet_id == s && q.tenant_id == t)).isEmpty = true then 0 else 1
    rw [List.filter_append]
    by_cases hts : t = pool.tenant_id ∧ s = pool.subnet_id
    · obtain ⟨rfl, rfl⟩ := hts
      have hne2 : st.ports.filter (Ns.portMatches env pool.tenant_id pool.subnet_id) ≠ [] := by
        intro hnil
        have hfind2 : (st.ports.filter
            (Ns.portMatches env pool.tenant_id pool.subnet_id)).head? = some p := hfind
        rw [hnil] at hfind2
        simp at hfind2
      have hpl : List.filter
          (fun q : Ns.Pool => q.subnet_id == pool.subnet_id && q.tenant_id == pool.tenant_id)
          [pool] = [pool] := by simp
      rw [hpl, if_neg (ns_isEmpty_ne_true
        (List.ne_nil_of_mem (List.mem_append_right _ (List.mem_singleton_self pool))))]
      have hcnt := hcount pool.tenant_id pool.subnet_id
      by_cases hpe : (Ns._get_pools_on_subnet st pool.tenant_id pool.subnet_id).isEmpty = true
      · rw [if_pos hpe] at hcnt
        exact absurd (List.eq_nil_of_length_eq_zero hcnt) hne2
      · rw [if_neg hpe] at hcnt
        exact hcnt
    · have hm2 : (pool.subnet_id == s && pool.tenant_id == t) = false := by
        cases hsb : (pool.subnet_id == s && pool.tenant_id == t) with
        | false => rfl
        | true =>
          obtain ⟨hh1, hh2⟩ : pool.subnet_id = s ∧ pool.tenant_id = t := by
            simpa [Bool.and_eq_true, beq_iff_eq] using hsb
          exact absurd ⟨hh2.symm, hh1.symm⟩ hts
      rw [show List.filter (fun q : Ns.Pool => q.subnet_id == s && q.tenant_id == t) [pool] = []
        by simp [List.filter_cons, hm2], List.append_nil]
      exact hcount t s
  | none =>
    rw [ns_ensure_snd_missing env _ _ _ ni hfind, ns_createPort_snd]
    set newP := (Ns._create_snatport_for_subnet env { st with pools := st.pools ++ [pool] }
      pool.tenant_id pool.subnet_id).1 with hnewP
    refine ⟨?_, ?_, hpoolpw, ?_⟩
    · show ∀ q ∈ st.ports ++ [newP], q.id < st.next_port_id + 1
      intro q hq
      rcases List.mem_append.mp hq with h1 | h2
      · exact Nat.lt_succ_of_lt (hbound q h1)
      · rw [List.mem_singleton] at h2
        subst h2
        exact Nat.lt_succ_self _
    · show List.Pairwise (fun p q : Ns.Port => p.id ≠ q.id) (st.ports ++ [newP])
      rw [List.pairwise_append]
      refine ⟨hports, List.pairwise_singleton _ _, ?_⟩
      intro a ha b hb
      rw [List.mem_singleton] at hb
      subst hb
      exact Nat.ne_of_lt (hbound a ha)
    · intro t s
      show ((st.ports ++ [newP]).filter (Ns.portMatches env t s)).length =
        if ((st.pools ++ [pool]).filter
            (fun q => q.subnet_id == s && q.tenant_id == t)).isEmpty = true then 0 else 1
      rw [List.filter_append, List.filter_append]
      by_cases hts : t = pool.tenant_id ∧ s = pool.subnet_id
      · obtain ⟨rfl, rfl⟩ := hts
        have hm : Ns.portMatches env pool.tenant_id pool.subnet_id newP = true := by
          rw [hnewP]
          exact (ns_createPort_matches env _ pool.tenant_id pool.subnet_id _ _).mpr ⟨rfl, rfl⟩
        have hempty : st.ports.filter (Ns.portMatches env pool.tenant_id pool.subnet_id) = [] := by
          have hfind2 : (st.ports.filter
              (Ns.portMatches env pool.tenant_id pool.subnet_id)).head? = none := hfind
          cases hl : st.ports.filter (Ns.portMatches env pool.tenant_id pool.subnet_id) with
          | nil => rfl
          | cons x xs =>
            rw [hl] at hfind2
            simp at hfind2
        rw [hempty,
          show List.filter (Ns.portMatches env pool.tenant_id pool.subnet_id) [newP] = [newP]
            by simp [List.filter_cons, hm],
          show List.filter
              (fun q : Ns.Pool => q.subnet_id == pool.subnet_id && q.tenant_id == pool.tenant_id)
              [pool] = [pool] by simp,
          if_neg (ns_isEmpty_ne_true
            (List.ne_nil_of_mem (List.mem_append_right _ (List.mem_singleton_self pool))))]
        rfl
      · have hm : Ns.portMatches env t s newP = false := by
          rw [hnewP]
          cases hmb : Ns.portMatches env t s (Ns._create_snatport_for_subnet env
              { st with pools := st.pools ++ [pool] } pool.tenant_id pool.subnet_id).1 with
          | false => rfl
          | true => exact absurd ((ns_createPort_matches env _ _ _ t s).mp hmb) hts
        have hm2 : (pool.subnet_id == s && pool.tenant_id == t) = false := by
          cases hsb : (pool.subnet_id == s && pool.tenant_id == t) with
          | false => rfl
          | true =>
            obtain ⟨hh1, hh2⟩ : pool.subnet_id = s ∧ pool.tenant_id = t := by
              simpa [Bool.and_eq_true, beq_iff_eq] using hsb
            exact absurd ⟨hh2.symm, hh1.symm⟩ hts
        rw [show List.filter (Ns.portMatches env t s) [newP] = []
            by simp [List.filter_cons, hm],
          show List.filter (fun q : Ns.Pool => q.subnet_id == s && q.tenant_id == t) [pool] = []
            by simp [List.filter_cons, hm2],
          List.append_nil, List.append_nil]
        exact hcount t s

theorem ns_wf_delete (env : Ns.Env) (st : Ns.St) (pool : Ns.Pool)
    (hwf : Ns.Wf env st) (hmem : pool ∈ st.pools) :
    Ns.Wf env (Ns._remove_snatport_for_subnet_if_not_used env
      (Ns._delete_db_pool st pool.id) pool.tenant_id pool.subnet_id) := by
  obtain ⟨hbound, hports, hpools, hcount⟩ := hwf
  have hpoolpw : (st.pools.filter (fun q => q.id != pool.id)).Pairwise
      (fun p q => p.id ≠ q.id) :=
    List.Pairwise.sublist (List.filter_sublist _) hpools
  have hpoolsOnOther : ∀ t s, ¬(t = pool.tenant_id ∧ s = pool.subnet_id) →
      (st.pools.filter (fun q => q.id != pool.id)).filter
        (fun q => q.subnet_id == s && q.tenant_id == t) =
      st.pools.filter (fun q => q.subnet_id == s && q.tenant_id == t) := by
    intro t s hts
    rw [ns_filter_comm]
    apply List.filter_eq_self.mpr
    intro q hq
    have hq1 := List.mem_filter.mp hq
    show (q.id != pool.id) = true
    rw [bne_iff_ne]
    intro hid
    have hqp : q = pool :=
      ns_key_unique (fun p : Ns.Pool => p.id) st.pools hpools q hq1.1 pool hmem hid
    subst hqp
    obtain ⟨hh1, hh2⟩ : q.subnet_id = s ∧ q.tenant_id = t := by
      simpa [Bool.and_eq_true, beq_iff_eq] using hq1.2
    exact absurd ⟨hh2.symm, hh1.symm⟩ hts
  have hpin : pool ∈ st.pools.filter
      (fun q => q.subnet_id == pool.subnet_id && q.tenant_id == pool.tenant_id) :=
    List.mem_filter.mpr ⟨hmem, by simp⟩
  by_cases hempty : ((st.pools.filter (fun q => q.id != pool.id)).filter
      (fun q => q.subnet_id == pool.subnet_id && q.tenant_id == pool.tenant_id)).isEmpty = true
  · have hposne : ¬ (st.pools.filter
        (fun q => q.subnet_id == pool.subnet_id && q.tenant_id == pool.tenant_id)).isEmpty
          = true :=
      ns_isEmpty_ne_true (List.ne_nil_of_mem hpin)
    have hone : (st.ports.filter (Ns.portMatches env pool.tenant_id pool.subnet_id)).length
        = 1 := by
      have hcnt : (st.ports.filter (Ns.portMatches env pool.tenant_id pool.subnet_id)).length =
          if (st.pools.filter
              (fun q => q.subnet_id == pool.subnet_id && q.tenant_id == pool.tenant_id)).isEmpty
            = true then 0 else 1 :=
        hcount pool.tenant_id pool.subnet_id
      rw [if_neg hposne] at hcnt
      exact hcnt
    obtain ⟨p0, hp0⟩ := List.length_eq_one.mp hone
    have hp0mem : p0 ∈ st.ports ∧ Ns.portMatches env pool.tenant_id pool.subnet_id p0 = true := by
      have hx : p0 ∈ st.ports.filter (Ns.portMatches env pool.tenant_id pool.subnet_id) := by
        rw [hp0]
        exact List.mem_singleton_self _
      exact List.mem_filter.mp hx
    have hfind : Ns._get_snatport_for_subnet env (Ns._delete_db_pool st pool.id)
        pool.tenant_id pool.subnet_id = some p0 := by
      show (st.ports.filter (Ns.portMatches env pool.tenant_id pool.subnet_id)).head? = some p0
      rw [hp0]
      rfl
    have hres : Ns._remove_snatport_for_subnet_if_not_used env (Ns._delete_db_pool st pool.id)
        pool.tenant_id pool.subnet_id =
        { pools := st.pools.filter (fun q => q.id != pool.id)
          ports := st.ports.filter (fun q => q.id != p0.id)
          next_port_id := st.next_port_id
          next_ip := st.next_ip } := by
      unfold Ns._remove_snatport_for_subnet_if_not_used
      have hemp2 : (Ns._get_pools_on_subnet (Ns._delete_db_pool st pool.id)
          pool.tenant_id pool.subnet_id).isEmpty = true := hempty
      rw [if_pos hemp2]
      unfold Ns._remove_snatport_for_subnet
      rw [hfind]
      rfl
    rw [hres]
    refine ⟨?_, ?_, hpoolpw, ?_⟩
    · show ∀ q ∈ st.ports.filter (fun q => q.id != p0.id), q.id < st.next_port_id
      intro q hq
      exact hbound q (List.mem_of_mem_filter hq)
    · show List.Pairwise (fun p q : Ns.Port => p.id ≠ q.id)
        (st.ports.filter (fun q => q.id != p0.id))
      exact List.Pairwise.sublist (List.filter_sublist _) hports
    · intro t s
      show ((st.ports.filter (fun q => q.id != p0.id)).filter (Ns.portMatches env t s)).length =
        if ((st.pools.filter (fun q => q.id != pool.id)).filter
            (fun q => q.subnet_id == s && q.tenant_id == t)).isEmpty = true then 0 else 1
      by_cases hts : t = pool.tenant_id ∧ s = pool.subnet_id
      · obtain ⟨rfl, rfl⟩ := hts
        have hsp0 : (st.ports.filter (fun q => q.id != p0.id)).filter
            (Ns.portMatches env pool.tenant_id pool.subnet_id) = [] := by
          rw [ns_filter_comm, hp0]
          simp
        rw [hsp0, if_pos hempty]
        rfl
      · have hspOther : (st.ports.filter (fun q => q.id != p0.id)).filter
            (Ns.portMatches env t s) = st.ports.filter (Ns.portMatches env t s) := by
          rw [ns_filter_comm]
          apply List.filter_eq_self.mpr
          intro q hq
          have hq1 := List.mem_filter.mp hq
          show (q.id != p0.id) = true
          rw [bne_iff_ne]
          intro hid
          have hqp : q = p0 :=
            ns_key_unique (fun p : Ns.Port => p.id) st.ports hports q hq1.1 p0 hp0mem.1 hid
          subst hqp
          exact absurd (ns_portMatches_functional env hq1.2 hp0mem.2) hts
        rw [hspOther, hpoolsOnOther t s hts]
        exact hcount t s
  · have hres : Ns._remove_snatport_for_subnet_if_not_used env (Ns._delete_db_pool st pool.id)
        pool.tenant_id pool.subnet_id = Ns._delete_db_pool st pool.id := by
      unfold Ns._remove_snatport_for_subnet_if_not_used
      have hemp2 : ¬ (Ns._get_pools_on_subnet (Ns._delete_db_pool st pool.id)
          pool.tenant_id pool.subnet_id).isEmpty = true := hempty
      rw [if_neg hemp2]
    rw [hres]
    refine ⟨?_, ?_, hpoolpw, ?_⟩
    · show ∀ q ∈ st.ports, q.id < st.next_port_id
      exact hbound
    · show List.Pairwise (fun p q : Ns.Port => p.id ≠ q.id) st.ports
      exact hports
    · intro t s
      show (st.ports.filter (Ns.portMatches env t s)).length =
        if ((st.pools.filter (fun q => q.id != pool.id)).filter
            (fun q => q.subnet_id == s && q.tenant_id == t)).isEmpty = true then 0 else 1
      by_cases hts : t = pool.tenant_id ∧ s = pool.subnet_id
      · obtain ⟨rfl, rfl⟩ := hts
        rw [if_neg hempty]
        have hposne : ¬ (st.pools.filter
            (fun q => q.subnet_id == pool.subnet_id && q.tenant_id == pool.tenant_id)).isEmpty
              = true :=
          ns_isEmpty_ne_true (List.ne_nil_of_mem hpin)
        have hcnt : (st.ports.filter (Ns.portMatches env pool.tenant_id pool.subnet_id)).length =
            if (st.pools.filter
                (fun q => q.subnet_id == pool.subnet_id && q.tenant_id == pool.tenant_id)).isEmpty
              = true then 0 else 1 :=
          hcount pool.tenant_id pool.subnet_id
        rw [if_neg hposne] at hcnt
        exact hcnt
      · rw [hpoolsOnOther t s hts]
        exact hcount t s

theorem ns_wf_runOp (env : Ns.Env) {st st2 : Ns.St} {op : Ns.Op}
    (hwf : Ns.Wf env st) (h : Ns.runOp env st op = some st2) : Ns.Wf env st2 := by
  cases op with
  | create p =>
    simp only [Ns.runOp] at h
    unfold Ns.platform_create_pool at h
    by_cases hdup : st.pools.any (fun q => q.id == p.id)
    · rw [if_pos hdup] at h
      simp at h
    · rw [if_neg hdup] at h
      unfold Ns.create_pool at h
      cases hsched : env.schedule p with
      | none =>
        rw [hsched] at h
        simp at h
      | some host =>
        rw [hsched] at h
        simp only [] at h
        have hfresh : ∀ q ∈ st.pools, q.id ≠ p.id := by
          intro q hq he
          exact hdup (List.any_eq_true.mpr ⟨q, hq, by simp [he]⟩)
        have h2 : (Ns._create_snatport_for_subnet_if_not_exists env
            { st with pools := st.pools ++ [p] } p.tenant_id p.subnet_id
            (Ns._get_pool_network_info env p)).2 = st2 := by
          simpa using h
        rw [← h2]
        exact ns_wf_create env st p (Ns._get_pool_network_info env p) ⟨hwf.1, hwf.2.1, hwf.2.2.1, hwf.2.2.2⟩ hfresh
  | del p =>
    simp only [Ns.runOp] at h
    unfold Ns.platform_delete_pool at h
    by_cases hmem : p ∈ st.pools
    · rw [if_pos hmem] at h
      unfold Ns.delete_pool at h
      cases hag : env.pool_agent p.id with
      | none =>
        rw [hag] at h
        simp at h
      | some host =>
        rw [hag] at h
        have h2 : Ns._remove_snatport_for_subnet_if_not_used env
            (Ns._delete_db_pool st p.id) p.tenant_id p.subnet_id = st2 := by
          simpa using h
        rw [← h2]
        exact ns_wf_delete env st p hwf hmem
    · rw [if_neg hmem] at h
      simp at h

theorem ns_wf_runOps (env : Ns.Env) :
    ∀ (ops : List Ns.Op) (st st2 : Ns.St),
      Ns.Wf env st → Ns.runOps env st ops = some st2 → Ns.Wf env st2 := by
  intro ops
  induction ops with
  | nil =>
    intro st st2 hwf h
    simp [Ns.runOps] at h
    rw [← h]
    exact hwf
  | cons op ops ih =>
    intro st st2 hwf h
    unfold Ns.runOps at h
    cases hop : Ns.runOp env st op with
    | none =>
      rw [hop] at h
      simp at h
    | some st1 =>
      rw [hop] at h
      exact ih st1 st2 (ns_wf_runOp env hwf hop) h

theorem ns_wf_st0 (env : Ns.Env) : Ns.Wf env Ns.st0 := by
  refine ⟨?_, ?_, ?_, ?_⟩ <;>
    simp [Ns.st0, Ns.snatPorts, Ns._get_pools_on_subnet]

/-- C3: after any successfully completed sequence of sequential pool create
and delete operations from the empty state, the number of SNAT ports for a
tenant and subnet is one exactly when some pool of the tenant references the
subnet, and zero otherwise: the first create on a bare subnet creates the
single port, further creates add none, deleting a non-last pool keeps it and
deleting the last pool removes it. -/
theorem ns_snatport_exists_iff_pool_references (env : Ns.Env) (ops : List Ns.Op)
    (st : Ns.St) (h : Ns.runOps env Ns.st0 ops = some st) :
    ∀ tenant_id subnet_id,
      (Ns.snatPorts env st tenant_id subnet_id).length =
        if (Ns._get_pools_on_subnet st tenant_id subnet_id).isEmpty then 0 else 1 :=
  (ns_wf_runOps env ops Ns.st0 st (ns_wf_st0 env) h).2.2.2

/-- C3 witness: scenario C, two creates on one bare subnet then the two
deletes, evaluated concretely. -/
theorem ns_snatport_exists_iff_pool_references_witness :
    Ns.runOps envA Ns.st0 opsC = some stC ∧
    (Ns.snatPorts envA stC "t1" "s1").length =
      (if (Ns._get_pools_on_subnet stC "t1" "s1").isEmpty then 0 else 1) :=
  ⟨by decide, ns_snatport_exists_iff_pool_references envA opsC stC (by decide) "t1" "s1"⟩
